import Mathlib

/-!
Verification development for the MassiveStarSuite backend pipeline
(source resolution, quality gating, spectral data staging, inference).

The definitions below are shallow embeddings of the Python functions in
src/backend: `resolve` and `_check_quality` from modules/resolve_source.py,
the product-key filename sanitization from modules/download_data.py,
`l2_normalize` and `inference` from modules/inference.py, and the
orchestrator endpoints from main.py.  Floating-point catalog attributes are
modelled as rationals (all threshold comparisons in the source are exact
decimal constants); the remote Gaia services are modelled as explicit
function-valued parameters (a `Catalog` record); Python exceptions become
`Except` values.
-/

/-- One row of the joined Gaia query result, as selected by the queries built
in `resolve` (gaia_source_lite joined with astrophysical_parameters).
`parallax` is `none` when the catalog value is null. -/
structure ResolvedSource where
  source_id : Nat
  ra : ℚ
  dec : ℚ
  parallax : Option ℚ
  parallax_over_error : ℚ
  ruwe : ℚ
  has_xp_sampled : Bool
  classprob_dsc_combmod_star : ℚ
  classprob_dsc_specmod_star : ℚ
  classprob_dsc_combmod_binarystar : ℚ
  classprob_dsc_specmod_binarystar : ℚ
  classprob_dsc_combmod_galaxy : ℚ
  classprob_dsc_specmod_galaxy : ℚ
  classprob_dsc_combmod_quasar : ℚ
  classprob_dsc_specmod_quasar : ℚ
  classprob_dsc_allosmod_galaxy : ℚ
  classprob_dsc_allosmod_star : ℚ
  classprob_dsc_allosmod_quasar : ℚ
deriving DecidableEq

/-- Outcome of `_check_quality`: normal return, or one of the two exceptions
it raises (each carrying its message). -/
inductive QualityOutcome where
  | ok : QualityOutcome
  | noData : String → QualityOutcome
  | poorQuality : String → QualityOutcome
deriving DecidableEq

def msgPoorParams : String :=
  "The source has poor parameters, it might not be properly resolved."

def msgGalaxyQuasar : String :=
  "The source is most likely a galaxy or quasar."

def msgNoBpRp : String :=
  "The source has no BP-RP spectrum data in Gaia Data Release 3!"

/-- The astrometric soft-issue condition of `_check_quality` (line 186):
ruwe above 1.4 in any row, or a null parallax in any row, or
parallax_over_error at most 3 in any row. -/
def astrometricIssue (results : List ResolvedSource) : Bool :=
  results.any (fun r => r.ruwe > mkRat 14 10) ||
  results.any (fun r => r.parallax.isNone) ||
  results.any (fun r => r.parallax_over_error <= (3 : ℚ))

/-- The `star_probs` list built at lines 190-202 of `_check_quality`.  In the
source this list is computed and then never used: no check reads it. -/
def star_probs (results : List ResolvedSource) : List (List ℚ) :=
  [ results.map (·.classprob_dsc_combmod_star),
    results.map (·.classprob_dsc_specmod_star),
    results.map (·.classprob_dsc_combmod_binarystar),
    results.map (·.classprob_dsc_specmod_binarystar),
    results.map (·.classprob_dsc_combmod_galaxy),
    results.map (·.classprob_dsc_specmod_galaxy),
    results.map (·.classprob_dsc_combmod_quasar),
    results.map (·.classprob_dsc_specmod_quasar),
    results.map (·.classprob_dsc_allosmod_galaxy),
    results.map (·.classprob_dsc_allosmod_star),
    results.map (·.classprob_dsc_allosmod_quasar) ]

/-- The galaxy-or-quasar soft-issue condition of `_check_quality` (line 205):
combmod or allosmod galaxy or quasar probability at least 0.5 in any row.
The specmod galaxy and quasar columns are not consulted here. -/
def galaxyQuasarIssue (results : List ResolvedSource) : Bool :=
  results.any (fun r => r.classprob_dsc_combmod_galaxy >= mkRat 5 10) ||
  results.any (fun r => r.classprob_dsc_combmod_quasar >= mkRat 5 10) ||
  results.any (fun r => r.classprob_dsc_allosmod_galaxy >= mkRat 5 10) ||
  results.any (fun r => r.classprob_dsc_allosmod_quasar >= mkRat 5 10)

/-- The `issues` list accumulated by `_check_quality`, in source order:
the astrometric message is appended first, the galaxy/quasar message
second. -/
def quality_issues (results : List ResolvedSource) : List String :=
  (if astrometricIssue results then [msgPoorParams] else []) ++
  (if galaxyQuasarIssue results then [msgGalaxyQuasar] else [])

/-- `_check_quality` as a state-passing translation: the returned pair is
(the outcome, the dataframe as the function leaves it).  The source body
only reads `results`; every exit returns the frame it received. -/
def check_quality_st (results : List ResolvedSource) :
    QualityOutcome × List ResolvedSource :=
  let issues := quality_issues results
  if results.any (fun r => r.has_xp_sampled != true) then
    (QualityOutcome.noData msgNoBpRp, results)
  else if !issues.isEmpty then
    (QualityOutcome.poorQuality (String.intercalate "; " issues), results)
  else
    (QualityOutcome.ok, results)

/-- The outcome of `_check_quality` on a resolved dataframe. -/
def check_quality (results : List ResolvedSource) : QualityOutcome :=
  (check_quality_st results).1

/-- The failures `resolve` can raise, by Python exception class.
`invalidRequest` stands for ValueError. -/
inductive ResolveError where
  | invalidRequest : String → ResolveError
  | noSourceFound : String → ResolveError
  | poorQuality : String → ResolveError
  | noData : String → ResolveError
deriving DecidableEq

def msgEitherIdOrCoords : String :=
  "Either 'id' or 'coords' (ra, dec) must be provided!"

def msgNoNumeric : String := "Invalid ID: No numeric values found."

def msgRaDecNumeric : String := "RA and DEC must be numeric strings."

def msgNoSources : String := "No sources found!"

/-- Python truthiness of an optional string argument: None and the empty
string are falsy. -/
def truthyStr : Option String → Bool
  | none => false
  | some s => !(s == "")

/-- Python str.isdigit for ASCII content: nonempty and all digits. -/
def isDigitStr (s : String) : Bool :=
  !s.toList.isEmpty && s.toList.all (fun c => c.isDigit)

/-- Grouping pass behind the regex findall of digit-run extraction: walks the
characters, accumulating the current digit run (reversed) in acc, emitting
each maximal run. -/
def digitRunsAux : List Char → List Char → List (List Char)
  | [], acc => if acc.isEmpty then [] else [acc.reverse]
  | c :: cs, acc =>
    if c.isDigit then digitRunsAux cs (c :: acc)
    else if acc.isEmpty then digitRunsAux cs acc
    else acc.reverse :: digitRunsAux cs []

/-- All maximal runs of consecutive digits in the string, in order: the
matches of the digit-run regex used at line 99 of resolve_source.py. -/
def digitRuns (l : List Char) : List (List Char) := digitRunsAux l []

/-- One step of the Python max fold: keep the new element only when its key
is strictly greater, so ties keep the earlier element. -/
def pickLonger (best x : List Char) : List Char :=
  if x.length > best.length then x else best

/-- Python max over a list with a length key and default None: the first
element of maximal length, or none for the empty list. -/
def maxByLen : List (List Char) → Option (List Char)
  | [] => none
  | r :: rs => some (rs.foldl pickLonger r)

/-- Numeric value of a digit string, as Python int() reads it. -/
def digitsToNat (l : List Char) : Nat :=
  l.foldl (fun n c => n * 10 + (c.toNat - 48)) 0

/-- The numeric-string test applied to ra and dec at line 115:
Python s.replace(a, b, 1) removes the first '.' only, then isdigit. -/
def removeFirstDot : List Char → List Char
  | [] => []
  | c :: cs => if c == '.' then cs else c :: removeFirstDot cs

def isNumericStr (s : String) : Bool :=
  !(removeFirstDot s.toList).isEmpty &&
  (removeFirstDot s.toList).all (fun c => c.isDigit)

/-- One row of the cone-search result (query_object_async): only its ra and
dec are read back. -/
structure ConeRow where
  ra : ℚ
  dec : ℚ
deriving DecidableEq

/-- The remote Gaia services as the resolver uses them: the cone search over
the 0.1 deg box around the given coordinate strings, the joined full-attribute
query by source id, and the joined query keyed by the cone match coordinates. -/
structure Catalog where
  coneSearch : String → String → List ConeRow
  queryById : Nat → List ResolvedSource
  queryByRaDec : ℚ → ℚ → List ResolvedSource

/-- The tail of `resolve` after the query is built and launched (lines
147-157): empty result fails with NoSourceFoundError, then `_check_quality`
runs and its exceptions propagate, then the dataframe is returned. -/
def finishQuery (rows : List ResolvedSource) :
    Except ResolveError (List ResolvedSource) :=
  if rows.isEmpty then Except.error (ResolveError.noSourceFound msgNoSources)
  else
    match check_quality rows with
    | QualityOutcome.noData m => Except.error (ResolveError.noData m)
    | QualityOutcome.poorQuality m => Except.error (ResolveError.poorQuality m)
    | QualityOutcome.ok => Except.ok rows

/-- `resolve(id, ra, dec)` from resolve_source.py.  Notable source behavior
captured here: a truthy id wins over coordinates (plain if/elif); a
non-numeric id falls back to its longest digit run, first on ties; the
NoSourceFoundError raised for an empty cone search at line 123 sits inside
the inner try at lines 117-140 whose except-Exception handler re-raises it
as the ValueError carrying the either-id-or-coords message. -/
def resolve (cat : Catalog) (id ra dec : Option String) :
    Except ResolveError (List ResolvedSource) :=
  if truthyStr id then
    let s := id.getD ""
    if isDigitStr s then finishQuery (cat.queryById (digitsToNat s.toList))
    else
      match maxByLen (digitRuns s.toList) with
      | none => Except.error (ResolveError.invalidRequest msgNoNumeric)
      | some run => finishQuery (cat.queryById (digitsToNat run))
  else if truthyStr ra && truthyStr dec then
    if !(isNumericStr (ra.getD "") && isNumericStr (dec.getD "")) then
      Except.error (ResolveError.invalidRequest msgRaDecNumeric)
    else
      match cat.coneSearch (ra.getD "") (dec.getD "") with
      | [] => Except.error (ResolveError.invalidRequest msgEitherIdOrCoords)
      | first :: _ => finishQuery (cat.queryByRaDec first.ra first.dec)
  else Except.error (ResolveError.invalidRequest msgEitherIdOrCoords)

/-- Outcome of the `pull_data` call as the orchestrator observes it: success
(the ./temp staging directory was created and the products written), a
DataDownloadError raised before the directory was created (the service call
itself failed), or a DataDownloadError raised after creation (a write
failed). -/
inductive PullOutcome where
  | ok : PullOutcome
  | failNoDir : PullOutcome
  | failDir : PullOutcome
deriving DecidableEq

/-- An HTTP response from an endpoint handler: the success payload, or the
JSONResponse status code and error class name. -/
inductive Resp where
  | success : List ℚ → ℚ → ℚ → Resp
  | failure : Nat → String → Resp
deriving DecidableEq

def exceptOk (e : Except String (List ℚ)) : Bool :=
  match e with
  | Except.ok _ => true
  | Except.error _ => false

def dummyRow : ResolvedSource :=
  { source_id := 0, ra := 0, dec := 0, parallax := none,
    parallax_over_error := 0, ruwe := 0, has_xp_sampled := false,
    classprob_dsc_combmod_star := 0, classprob_dsc_specmod_star := 0,
    classprob_dsc_combmod_binarystar := 0,
    classprob_dsc_specmod_binarystar := 0,
    classprob_dsc_combmod_galaxy := 0, classprob_dsc_specmod_galaxy := 0,
    classprob_dsc_combmod_quasar := 0, classprob_dsc_specmod_quasar := 0,
    classprob_dsc_allosmod_galaxy := 0, classprob_dsc_allosmod_star := 0,
    classprob_dsc_allosmod_quasar := 0 }

/-- The `/predict/id` handler from main.py, returning the response together
with whether the ./temp staging directory exists when the handler returns.
The environment beyond the catalog is abstracted by three parameters: the
outcome of `pull_data`, whether the csv-glob/read/model-load steps succeed
(their failures reach the generic except and report UnexpectedError), and
the outcome of `inference` (its prediction list, or an InferenceError).
Source behavior captured: `_clean_temp(data_dir)` runs only on the success
path (line 183); none of the except blocks at lines 194-214 delete the
staging directory, so a failure after `pull_data` leaves it in place.
A ValueError from `resolve` is not in the 400 handler tuple and falls
through to the generic except (status 500, UnexpectedError). -/
def predict_by_id (cat : Catalog) (pull : PullOutcome) (readOk : Bool)
    (infer : Except String (List ℚ)) (sid : String) : Resp × Bool :=
  match resolve cat (some sid) none none with
  | Except.error (ResolveError.noSourceFound _m) =>
      (Resp.failure 400 "NoSourceFoundError", false)
  | Except.error (ResolveError.poorQuality _m) =>
      (Resp.failure 400 "PoorSourceQualityError", false)
  | Except.error (ResolveError.noData _m) =>
      (Resp.failure 400 "NoDataError", false)
  | Except.error (ResolveError.invalidRequest _m) =>
      (Resp.failure 500 "UnexpectedError", false)
  | Except.ok results =>
    match pull with
    | PullOutcome.failNoDir => (Resp.failure 500 "DataDownloadError", false)
    | PullOutcome.failDir => (Resp.failure 500 "DataDownloadError", true)
    | PullOutcome.ok =>
      if !readOk then (Resp.failure 500 "UnexpectedError", true)
      else
        match infer with
        | Except.error _m => (Resp.failure 500 "InferenceError", true)
        | Except.ok pred =>
            (Resp.success pred (results.headD dummyRow).ra
              (results.headD dummyRow).dec, false)

/-- The `/predict/coordinates` handler from main.py, same shape as
`predict_by_id` but resolving by the coordinate pair and returning no
ra/dec in the payload.  The coordinate arguments are taken here as the
strings `resolve` expects. -/
def predict_by_coordinates (cat : Catalog) (pull : PullOutcome)
    (readOk : Bool) (infer : Except String (List ℚ)) (ra dec : String) :
    Resp × Bool :=
  match resolve cat none (some ra) (some dec) with
  | Except.error (ResolveError.noSourceFound _m) =>
      (Resp.failure 400 "NoSourceFoundError", false)
  | Except.error (ResolveError.poorQuality _m) =>
      (Resp.failure 400 "PoorSourceQualityError", false)
  | Except.error (ResolveError.noData _m) =>
      (Resp.failure 400 "NoDataError", false)
  | Except.error (ResolveError.invalidRequest _m) =>
      (Resp.failure 500 "UnexpectedError", false)
  | Except.ok _results =>
    match pull with
    | PullOutcome.failNoDir => (Resp.failure 500 "DataDownloadError", false)
    | PullOutcome.failDir => (Resp.failure 500 "DataDownloadError", true)
    | PullOutcome.ok =>
      if !readOk then (Resp.failure 500 "UnexpectedError", true)
      else
        match infer with
        | Except.error _m => (Resp.failure 500 "InferenceError", true)
        | Except.ok pred => (Resp.success pred 0 0, false)

/-- Whether the staging directory exists after `predict_by_id` returns,
written from the amended cleanup description: it exists exactly when
`pull_data` created it and the invocation did not then finish the read and
inference steps successfully (cleanup runs only on the success path). -/
def stagingAfterSpec (cat : Catalog) (pull : PullOutcome) (readOk : Bool)
    (infer : Except String (List ℚ)) (sid : String) : Bool :=
  match resolve cat (some sid) none none with
  | Except.error _ => false
  | Except.ok _ =>
    match pull with
    | PullOutcome.failNoDir => false
    | PullOutcome.failDir => true
    | PullOutcome.ok => !(readOk && exceptOk infer)

/-- Does pat occur (as a contiguous sublist) in l?  Helper for reasoning
about the replacement passes. -/
def startsWith : List Char → List Char → Bool
  | [], _ => true
  | _ :: _, [] => false
  | p :: ps, c :: cs => p == c && startsWith ps cs

def containsSub (pat : List Char) : List Char → Bool
  | [] => startsWith pat []
  | c :: cs => startsWith pat (c :: cs) || containsSub pat cs

/-- Python str.replace(pat, rep) on character lists: scan left to right,
replacing each leftmost non-overlapping occurrence.  Fuel-driven so the
definition is structural; `pyReplace` supplies fuel equal to the list
length, which is enough for every nonempty pattern (the only kind the
source uses). -/
def replaceAux (pat rep : List Char) : Nat → List Char → List Char
  | _, [] => []
  | 0, l => l
  | n + 1, c :: cs =>
    if startsWith pat (c :: cs) then
      rep ++ replaceAux pat rep n ((c :: cs).drop pat.length)
    else c :: replaceAux pat rep n cs

def pyReplace (s pat rep : List Char) : List Char :=
  replaceAux pat rep s.length s

/-- The product-key filename derivation at line 90 of download_data.py:
remove every occurrence of .xml, then replace spaces and hyphens with
underscores. -/
def sanitize_key (s : List Char) : List Char :=
  pyReplace (pyReplace (pyReplace s ".xml".toList []) " ".toList "_".toList)
    "-".toList "_".toList

/-- A torch.jit module as `inference` uses it: a forward function from the
3-D batch tensor to a vector of raw scores, and the training-mode flag that
`model.eval()` clears. -/
structure TorchModel where
  forward : List (List (List ℝ)) → List ℝ
  training : Bool

/-- Row-wise Euclidean norm: tensor.norm(p=2, dim=1, keepdim=True) applied
to one row. -/
noncomputable def l2norm (row : List ℝ) : ℝ :=
  Real.sqrt ((row.map (fun x => x ^ 2)).sum)

/-- `l2_normalize(tensor, eps)` from modules/inference.py on a 2-D tensor
(list of rows): computes the per-row L2 norm (dim=1, keepdim=True) and
divides every element by its row norm.  The eps parameter, defaulted to
1e-10 in the source, never appears in the body: the returned value is
tensor / norm with no guard. -/
noncomputable def l2_normalize (t : List (List ℝ)) (eps : ℝ := 1e-10) :
    List (List ℝ) :=
  t.map (fun row => row.map (fun x => x / l2norm row))

/-- torch.sigmoid. -/
noncomputable def sigmoid (x : ℝ) : ℝ := 1 / (1 + Real.exp (-x))

/-- torch.round followed by the float cast (the source rounds half to even;
the tie case is irrelevant to every claim below). -/
noncomputable def torchRound (x : ℝ) : ℝ := ((round x : ℤ) : ℝ)

/-- X.unsqueeze(1): shape (B, N) to (B, 1, N). -/
def unsqueeze1 (t : List (List ℝ)) : List (List (List ℝ)) :=
  t.map (fun row => [row])

/-- `inference(model, X)` from modules/inference.py, as a state-passing
translation over the model object: returns the prediction vector together
with the model as the call leaves it.  The body normalizes X, calls
model.eval() — which mutates the module by setting its training flag to
False — runs the forward pass under no_grad, applies sigmoid and
rounds. -/
noncomputable def inference (m : TorchModel) (X : List (List ℝ)) :
    List ℝ × TorchModel :=
  let Xn := l2_normalize X
  let m2 : TorchModel := { m with training := false }
  let output := m2.forward (unsqueeze1 Xn)
  let prob := output.map sigmoid
  let prediction := prob.map torchRound
  (prediction, m2)

deriving instance DecidableEq for Except

/-- Does the identifier contain any digit at all? -/
def hasDigit (s : String) : Bool := s.toList.any (fun c => c.isDigit)

/-- A catalog row that passes every quality check: the attribute profile of
the end-to-end scenario (ruwe 1.1, parallax 2.5, parallax_over_error 15,
spectrum present, star probability 0.95, galaxy and quasar probabilities
0.01). -/
def goodRow : ResolvedSource :=
  { source_id := 4111834567779557376, ra := 256, dec := -26,
    parallax := some (mkRat 5 2), parallax_over_error := 15,
    ruwe := mkRat 11 10,
    has_xp_sampled := true,
    classprob_dsc_combmod_star := mkRat 95 100,
    classprob_dsc_specmod_star := mkRat 95 100,
    classprob_dsc_combmod_binarystar := mkRat 1 100,
    classprob_dsc_specmod_binarystar := mkRat 1 100,
    classprob_dsc_combmod_galaxy := mkRat 1 100,
    classprob_dsc_specmod_galaxy := mkRat 1 100,
    classprob_dsc_combmod_quasar := mkRat 1 100,
    classprob_dsc_specmod_quasar := mkRat 1 100,
    classprob_dsc_allosmod_galaxy := mkRat 1 100,
    classprob_dsc_allosmod_star := mkRat 95 100,
    classprob_dsc_allosmod_quasar := mkRat 1 100 }

/-- A row with no spectral data and, besides that, a soft astrometric
issue (ruwe 2): exercises the priority of the hard failure. -/
def xpMissingRow : ResolvedSource :=
  { goodRow with has_xp_sampled := false, ruwe := 2 }

/-- A row whose star-classification probabilities under both combmod and
specmod are 0.4 (below one half) while every galaxy and quasar probability
stays at 0.01 and all other attributes are clean. -/
def lowStarRow : ResolvedSource :=
  { goodRow with
    classprob_dsc_combmod_star := mkRat 4 10,
    classprob_dsc_specmod_star := mkRat 4 10,
    classprob_dsc_allosmod_star := mkRat 4 10 }

/-- A row classified as a galaxy with probability 0.9 under combmod,
spectrum present, astrometry clean. -/
def galaxyRow : ResolvedSource :=
  { goodRow with
    classprob_dsc_combmod_star := mkRat 5 100,
    classprob_dsc_combmod_galaxy := mkRat 9 10 }

/-- A catalog whose cone search finds nothing anywhere and whose id and
coordinate queries return the good row. -/
def sampleCat : Catalog :=
  { coneSearch := fun _ _ => [],
    queryById := fun _ => [goodRow],
    queryByRaDec := fun _ _ => [goodRow] }

/-- A model loaded in training mode. -/
def trainModel : TorchModel := { forward := fun _ => [0], training := true }

/-- C3: a row without spectral data forces the NoData outcome, regardless of
every other attribute, and it is reported instead of (never in addition to)
any soft issues detected on the same data. -/
theorem c3_no_spectrum_dominates (rows : List ResolvedSource)
    (r : ResolvedSource) (hr : r ∈ rows) (hx : r.has_xp_sampled = false) :
    check_quality rows = QualityOutcome.noData msgNoBpRp := by
  have h : rows.any (fun q => q.has_xp_sampled != true) = true :=
    List.any_eq_true.mpr ⟨r, hr, by simp [hx]⟩
  simp only [check_quality, check_quality_st, h, if_true]

/-- Witness for C3 at a row that both lacks the spectrum and carries a soft
astrometric issue: the hard failure is the one reported. -/
theorem c3_no_spectrum_dominates_witness :
    check_quality [xpMissingRow] = QualityOutcome.noData msgNoBpRp :=
  c3_no_spectrum_dominates [xpMissingRow] xpMissingRow (by simp) (by decide)

/-- C7: the Quality Gate is deterministic and mutation-free: on equal
dataframes the state-passing translation returns equal outcomes, and the
frame it hands back is the frame it received. -/
theorem c7_quality_gate_pure (r1 r2 : List ResolvedSource) (h : r1 = r2) :
    check_quality_st r1 = check_quality_st r2 ∧ (check_quality_st r1).2 = r1 := by
  subst h
  refine ⟨rfl, ?_⟩
  simp only [check_quality_st]
  split_ifs <;> rfl

/-- Witness for C7 at the good row. -/
theorem c7_quality_gate_pure_witness :
    check_quality_st [goodRow] = check_quality_st [goodRow] ∧
    (check_quality_st [goodRow]).2 = [goodRow] :=
  c7_quality_gate_pure [goodRow] [goodRow] rfl

/-- C9: l2_normalize divides every element by the Euclidean norm of its
row (for a single-row tensor, the norm of the full vector); the eps
parameter never affects the returned value; and on the all-zeros vector the
row norm is exactly zero, so the division by the zero norm happens with no
guard. -/
theorem c9_l2_normalize_unguarded :
    (∀ (t : List (List ℝ)) (e1 e2 : ℝ), l2_normalize t e1 = l2_normalize t e2) ∧
    (∀ (v : List ℝ) (e : ℝ),
      l2_normalize [v] e = [v.map (fun x => x / l2norm v)]) ∧
    (∀ n : ℕ, l2norm (List.replicate n 0) = 0) ∧
    (∀ (n : ℕ) (e : ℝ),
      l2_normalize [List.replicate n (0 : ℝ)] e =
        [(List.replicate n (0 : ℝ)).map (fun x => x / 0)]) := by
  have hz : ∀ n : ℕ, l2norm (List.replicate n 0) = 0 := by
    intro n
    simp [l2norm]
  exact ⟨fun t e1 e2 => rfl, fun v e => rfl, hz,
    fun n e => by simp [l2_normalize, hz n]⟩

/-- C10 counterexample: a model passed to inference in training mode is not
unchanged after the call, because model.eval() clears its training flag. -/
theorem c10_model_mutated_counterexample :
    (inference trainModel [[1]]).2 ≠ trainModel := by
  intro h
  have h2 := congrArg TorchModel.training h
  simp [inference, trainModel] at h2

/-- C10 amended: inference leaves every field of the model unchanged except
the training flag, which model.eval() sets to false — so a model already in
evaluation mode comes back unchanged, and the forward weights are never
touched. -/
theorem c10_model_effect (m : TorchModel) (X : List (List ℝ)) :
    (inference m X).2 = { m with training := false } := rfl

/-- C1 counterexample: a run that resolves and stages successfully and then
hits an InferenceError returns with the staging directory still in
existence — cleanup did not run on this exit path. -/
theorem c1_staging_leak_counterexample :
    predict_by_id sampleCat PullOutcome.ok true
      (Except.error "Inference failed: boom") "4111834567779557376" =
      (Resp.failure 500 "InferenceError", true) := by decide

/-- C1 amended: the Orchestrator deletes the staging directory only on the
success path.  After predict_by_id returns, the staging directory exists
exactly when pull_data created it and the invocation did not then complete
the read and inference steps successfully; in particular it persists after
an InferenceError or a file-read failure, while on success and on every
failure before acquisition (including quality rejection) it is absent. -/
theorem c1_staging_cleanup_success_only (cat : Catalog) (pull : PullOutcome)
    (readOk : Bool) (infer : Except String (List ℚ)) (sid : String) :
    (predict_by_id cat pull readOk infer sid).2 =
      stagingAfterSpec cat pull readOk infer sid := by
  unfold predict_by_id stagingAfterSpec
  cases hR : resolve cat (some sid) none none with
  | error e => cases e <;> simp
  | ok rows =>
    cases pull <;> cases readOk <;> cases infer <;> simp [exceptOk]

/-- C2: at coordinates whose cone search returns zero matches, resolve does
not fail with NoSourceFound: the NoSourceFoundError raised internally is
swallowed by the surrounding except handler and re-raised as the ValueError
carrying the either-id-or-coords message (InvalidRequest), which the
endpoint then reports as a 500 UnexpectedError; no staging directory is
created because pull_data is never reached. -/
theorem c2_cone_miss_wrong_error :
    resolve sampleCat none (some "256.5229102004341")
        (some "26.580565130784702") =
      Except.error (ResolveError.invalidRequest msgEitherIdOrCoords) ∧
    predict_by_coordinates sampleCat PullOutcome.ok true (Except.ok [1])
        "256.5229102004341" "26.580565130784702" =
      (Resp.failure 500 "UnexpectedError", false) := by
  constructor
  · decide
  · decide

/-- C4 counterexample: a row whose star probabilities under combmod and
specmod are 0.4 (below one half) but whose galaxy and quasar probabilities
are small is accepted outright — no soft issue is raised and no PoorQuality
rejection happens, although the claim requires one. -/
theorem c4_low_star_prob_accepted_counterexample :
    check_quality [lowStarRow] = QualityOutcome.ok := by decide

/-- C5 counterexample: supplying the identifier and the coordinate pair
simultaneously does not fail with InvalidRequest: the identifier branch
wins and resolution succeeds. -/
theorem c5_both_supplied_no_failure_counterexample :
    resolve sampleCat (some "4111834567779557376") (some "1.0") (some "2.0") =
      Except.ok [goodRow] := by decide

/-- C5 amended: resolve fails with InvalidRequest when neither a truthy
identifier nor a full truthy coordinate pair is supplied; when both are
supplied, the identifier takes precedence and the coordinates are ignored
(the result is the same as resolving by the identifier alone). -/
theorem c5_exactly_one_amended :
    (∀ (cat : Catalog) (id ra dec : Option String),
      truthyStr id = false → (truthyStr ra && truthyStr dec) = false →
      resolve cat id ra dec =
        Except.error (ResolveError.invalidRequest msgEitherIdOrCoords)) ∧
    (∀ (cat : Catalog) (id ra dec : Option String),
      truthyStr id = true →
      resolve cat id ra dec = resolve cat id none none) := by
  constructor
  · intro cat id ra dec h1 h2
    simp [resolve, h1, h2]
  · intro cat id ra dec h1
    simp [resolve, h1]

/-- Witness for the amended C5: neither argument fails with InvalidRequest;
id plus coordinates behaves as id alone. -/
theorem c5_exactly_one_amended_witness :
    resolve sampleCat none none none =
      Except.error (ResolveError.invalidRequest msgEitherIdOrCoords) ∧
    resolve sampleCat (some "123") (some "1.0") (some "2.0") =
      resolve sampleCat (some "123") none none :=
  ⟨c5_exactly_one_amended.1 sampleCat none none none rfl rfl,
   c5_exactly_one_amended.2 sampleCat (some "123") (some "1.0") (some "2.0")
     (by decide)⟩

/-- C4 amended: the non-stellar classification soft issue is raised exactly
by the galaxy/quasar test the source performs — combmod or allosmod galaxy
or quasar probability at least 0.5 (specmod galaxy/quasar and the star
probabilities themselves are never consulted) — and when it fires on data
whose rows all have spectra, the gate rejects with PoorQuality carrying the
joined issue messages, the galaxy/quasar message among them. -/
theorem c4_nonstellar_issue_amended (rows : List ResolvedSource)
    (h1 : galaxyQuasarIssue rows = true)
    (h2 : ∀ r ∈ rows, r.has_xp_sampled = true) :
    check_quality rows =
      QualityOutcome.poorQuality
        (String.intercalate "; " (quality_issues rows)) ∧
    msgGalaxyQuasar ∈ quality_issues rows := by
  have hx : rows.any (fun r => r.has_xp_sampled != true) = false := by
    simp only [List.any_eq_false]
    intro r hr
    simp [h2 r hr]
  have hne : (quality_issues rows).isEmpty = false := by
    simp only [quality_issues, h1, if_true]
    cases hA : astrometricIssue rows <;> simp
  constructor
  · simp only [check_quality, check_quality_st, hx, hne, Bool.false_eq_true,
      if_false, Bool.not_false, if_true]
  · simp [quality_issues, h1]

/-- Witness for the amended C4 at a galaxy-classified row with a spectrum:
PoorQuality with the galaxy/quasar message. -/
theorem c4_nonstellar_issue_amended_witness :
    (check_quality [galaxyRow] =
      QualityOutcome.poorQuality
        (String.intercalate "; " (quality_issues [galaxyRow])) ∧
    msgGalaxyQuasar ∈ quality_issues [galaxyRow]) :=
  c4_nonstellar_issue_amended [galaxyRow] (by decide) (by decide)

theorem foldl_pickLonger_mem (rs : List (List Char)) :
    ∀ r, rs.foldl pickLonger r ∈ r :: rs := by
  induction rs with
  | nil => intro r; simp
  | cons x xs ih =>
    intro r
    simp only [List.foldl_cons]
    rcases List.mem_cons.mp (ih (pickLonger r x)) with h1 | h1
    · rw [h1]
      unfold pickLonger
      split
      · exact List.mem_cons_of_mem _ (List.mem_cons_self _ _)
      · exact List.mem_cons_self _ _
    · exact List.mem_cons_of_mem _ (List.mem_cons_of_mem _ h1)

theorem foldl_pickLonger_ge (rs : List (List Char)) :
    ∀ r y, y ∈ r :: rs → y.length ≤ (rs.foldl pickLonger r).length := by
  induction rs with
  | nil =>
    intro r y hy
    rw [List.mem_singleton.mp hy]
    exact le_refl _
  | cons x xs ih =>
    intro r y hy
    simp only [List.foldl_cons]
    have hr : r.length ≤ (pickLonger r x).length := by
      unfold pickLonger
      split
      · omega
      · exact le_refl _
    have hx : x.length ≤ (pickLonger r x).length := by
      unfold pickLonger
      split
      · exact le_refl _
      · omega
    have hhead : (pickLonger r x).length ≤ (xs.foldl pickLonger (pickLonger r x)).length :=
      ih (pickLonger r x) (pickLonger r x) (List.mem_cons_self _ _)
    rcases List.mem_cons.mp hy with h1 | h1
    · exact le_trans (h1 ▸ hr) hhead
    · rcases List.mem_cons.mp h1 with h2 | h2
      · exact le_trans (h2 ▸ hx) hhead
      · exact ih (pickLonger r x) y (List.mem_cons_of_mem _ h2)

theorem maxByLen_spec (l : List (List Char)) (run : List Char)
    (h : maxByLen l = some run) :
    run ∈ l ∧ ∀ r ∈ l, r.length ≤ run.length := by
  cases l with
  | nil => simp [maxByLen] at h
  | cons x xs =>
    simp only [maxByLen, Option.some.injEq] at h
    subst h
    exact ⟨foldl_pickLonger_mem xs x, fun r hr => foldl_pickLonger_ge xs x r hr⟩

theorem digitRunsAux_ne_nil_acc (l : List Char) :
    ∀ acc : List Char, acc ≠ [] → digitRunsAux l acc ≠ [] := by
  induction l with
  | nil =>
    intro acc h
    simp [digitRunsAux, h]
  | cons c cs ih =>
    intro acc h
    unfold digitRunsAux
    split_ifs with h1 h2
    · exact ih (c :: acc) (by simp)
    · exact absurd (List.isEmpty_iff.mp h2) h
    · simp

theorem digitRunsAux_ne_nil_digit (l : List Char) :
    ∀ acc : List Char, (∃ c ∈ l, c.isDigit = true) → digitRunsAux l acc ≠ [] := by
  induction l with
  | nil =>
    rintro acc ⟨c, hc, _⟩
    simp at hc
  | cons c cs ih =>
    rintro acc ⟨d, hd, hdig⟩
    unfold digitRunsAux
    split_ifs with h1 h2
    · exact digitRunsAux_ne_nil_acc cs (c :: acc) (by simp)
    · rcases List.mem_cons.mp hd with h3 | h3
      · exact absurd (h3 ▸ hdig) (by simp [h1])
      · exact ih acc ⟨d, h3, hdig⟩
    · simp

theorem digitRunsAux_nil_of_no_digit (l : List Char)
    (h : ∀ c ∈ l, c.isDigit = false) : digitRunsAux l [] = [] := by
  induction l with
  | nil => rfl
  | cons c cs ih =>
    unfold digitRunsAux
    rw [if_neg (by simp [h c (List.mem_cons_self _ _)]),
      if_pos List.isEmpty_nil]
    exact ih (fun d hd => h d (List.mem_cons_of_mem _ hd))

/-- C6: for a truthy identifier that is not purely numeric, resolve uses the
longest run of consecutive digits as the numeric source identifier — the run
it feeds to the id query is one of the digit runs of the string, no digit
run is longer, and the rest of the pipeline is exactly the id-query tail; if
the identifier has no digits at all, resolve fails with the ValueError
(InvalidRequest) carrying the no-numeric-values message. -/
theorem c6_longest_digit_run (cat : Catalog) (s : String)
    (h1 : truthyStr (some s) = true) (h2 : isDigitStr s = false) :
    (hasDigit s = true →
      ∃ run, run ∈ digitRuns s.toList ∧
        (∀ r ∈ digitRuns s.toList, r.length ≤ run.length) ∧
        resolve cat (some s) none none =
          finishQuery (cat.queryById (digitsToNat run))) ∧
    (hasDigit s = false →
      resolve cat (some s) none none =
        Except.error (ResolveError.invalidRequest msgNoNumeric)) := by
  constructor
  · intro h3
    have hne : digitRuns s.toList ≠ [] :=
      digitRunsAux_ne_nil_digit s.toList [] (List.any_eq_true.mp h3)
    obtain ⟨run, hrun⟩ : ∃ run, maxByLen (digitRuns s.toList) = some run := by
      cases hD : digitRuns s.toList with
      | nil => exact absurd hD hne
      | cons x xs => exact ⟨xs.foldl pickLonger x, by simp [maxByLen]⟩
    obtain ⟨hmem, hmax⟩ := maxByLen_spec _ _ hrun
    refine ⟨run, hmem, hmax, ?_⟩
    have hrun2 : maxByLen (digitRuns s.data) = some run := hrun
    simp [resolve, h1, h2, hrun2]
  · intro h3
    have hnil : digitRuns s.toList = [] := by
      apply digitRunsAux_nil_of_no_digit
      intro c hc
      have h4 := List.any_eq_false.mp h3 c hc
      simpa using h4
    have hnil2 : digitRunsAux s.data [] = [] := hnil
    simp [resolve, h1, h2, digitRuns, hnil2, maxByLen]

/-- Witness for C6 at the identifier of the end-to-end scenario: the string
is truthy, not purely numeric, has digits, and the longest digit run used
for the query is 4111834567779557376. -/
theorem c6_longest_digit_run_witness :
    ∃ run, run ∈ digitRuns "Gaia DR3 4111834567779557376".toList ∧
      (∀ r ∈ digitRuns "Gaia DR3 4111834567779557376".toList,
        r.length ≤ run.length) ∧
      resolve sampleCat (some "Gaia DR3 4111834567779557376") none none =
        finishQuery (sampleCat.queryById (digitsToNat run)) :=
  (c6_longest_digit_run sampleCat "Gaia DR3 4111834567779557376"
    (by decide) (by decide)).1 (by decide)

/-- C8 counterexample: sanitization is not idempotent for every product-key
string.  Removing the occurrences of .xml from ".x.xmlml" produces ".xml"
again, so a second sanitization pass removes it and yields a different
string. -/
theorem c8_sanitize_not_idempotent_counterexample :
    sanitize_key (sanitize_key ".x.xmlml".toList) ≠
      sanitize_key ".x.xmlml".toList := by decide

theorem replaceAux_no_occurrence (pat rep : List Char) :
    ∀ (fuel : Nat) (l : List Char), containsSub pat l = false →
      replaceAux pat rep fuel l = l := by
  intro fuel
  induction fuel with
  | zero =>
    intro l h
    cases l <;> rfl
  | succ n ih =>
    intro l h
    cases l with
    | nil => rfl
    | cons c cs =>
      simp only [containsSub, Bool.or_eq_false_iff] at h
      unfold replaceAux
      rw [if_neg (by simp [h.1])]
      rw [ih cs h.2]

theorem replaceAux_single_absent (c d : Char) (hcd : (c == d) = false) :
    ∀ (fuel : Nat) (l : List Char), l.length ≤ fuel →
      containsSub [c] (replaceAux [c] [d] fuel l) = false := by
  intro fuel
  induction fuel with
  | zero =>
    intro l hl
    rw [List.length_eq_zero.mp (Nat.le_zero.mp hl)]
    rfl
  | succ n ih =>
    intro l hl
    cases l with
    | nil => rfl
    | cons x xs =>
      unfold replaceAux
      by_cases hx : startsWith [c] (x :: xs) = true
      · rw [if_pos hx]
        have hd : ((x :: xs).drop ([c].length)) = xs := by simp
        rw [hd, List.singleton_append]
        simp only [containsSub, startsWith, Bool.and_true]
        rw [ih xs (by simpa using hl), hcd]
        rfl
      · rw [if_neg hx]
        simp only [containsSub, startsWith, Bool.and_true] at hx ⊢
        rw [ih xs (by simpa using hl)]
        simp only [Bool.not_eq_true] at hx
        rw [hx]
        rfl

theorem replaceAux_preserves_absent (a c d : Char) (had : (a == d) = false) :
    ∀ (fuel : Nat) (l : List Char), containsSub [a] l = false →
      containsSub [a] (replaceAux [c] [d] fuel l) = false := by
  intro fuel
  induction fuel with
  | zero =>
    intro l h
    cases l with
    | nil => rfl
    | cons x xs => exact h
  | succ n ih =>
    intro l h
    cases l with
    | nil => rfl
    | cons x xs =>
      simp only [containsSub, startsWith, Bool.and_true,
        Bool.or_eq_false_iff] at h
      unfold replaceAux
      by_cases hx : startsWith [c] (x :: xs) = true
      · rw [if_pos hx]
        have hd : ((x :: xs).drop ([c].length)) = xs := by simp
        rw [hd, List.singleton_append]
        simp only [containsSub, startsWith, Bool.and_true]
        rw [ih xs h.2, had]
        rfl
      · rw [if_neg hx]
        simp only [containsSub, startsWith, Bool.and_true]
        rw [ih xs h.2, h.1]
        rfl

/-- C8 amended: the sanitization pass is idempotent on every product key
whose once-sanitized form contains no further occurrence of .xml — which
covers every key the bulk-data service actually emits — but not on every
string, because removing .xml occurrences can splice together a new .xml
occurrence (see the counterexample). -/
theorem c8_sanitize_idempotent_amended (s : List Char)
    (h : containsSub ".xml".toList (sanitize_key s) = false) :
    sanitize_key (sanitize_key s) = sanitize_key s := by
  have husp : containsSub [' '] (sanitize_key s) = false := by
    unfold sanitize_key pyReplace
    apply replaceAux_preserves_absent ' ' '-' '_' (by decide)
    exact replaceAux_single_absent ' ' '_' (by decide) _ _ (le_refl _)
  have hhyp : containsSub ['-'] (sanitize_key s) = false := by
    unfold sanitize_key pyReplace
    exact replaceAux_single_absent '-' '_' (by decide) _ _ (le_refl _)
  show pyReplace (pyReplace (pyReplace (sanitize_key s) ".xml".toList [])
      " ".toList "_".toList) "-".toList "_".toList = sanitize_key s
  rw [show pyReplace (sanitize_key s) ".xml".toList [] = sanitize_key s from
    replaceAux_no_occurrence _ _ _ _ h]
  rw [show pyReplace (sanitize_key s) " ".toList "_".toList = sanitize_key s from
    replaceAux_no_occurrence _ _ _ _ husp]
  exact replaceAux_no_occurrence _ _ _ _ hhyp

/-- Witness for the amended C8 at a product key of the expected shape:
stripping .xml and replacing spaces and hyphens once is already a fixed
point of the sanitization. -/
theorem c8_sanitize_idempotent_amended_witness :
    sanitize_key (sanitize_key "XP SAMPLED-Gaia DR3 123.xml".toList) =
      sanitize_key "XP SAMPLED-Gaia DR3 123.xml".toList :=
  c8_sanitize_idempotent_amended "XP SAMPLED-Gaia DR3 123.xml".toList
    (by decide)
